import Mathlib

/-!
Shallow embedding of the booking conflict-detection and reservation-admission
engine of the Campus Resource Hub repository, together with proofs about it.

Sources embedded:
* `src/data_access/booking_dal.py` (`BookingDAL`): `check_for_conflict`,
  `create_booking`, `update_booking_status`.
* `src/data_access/waitlist_dal.py` (`WaitlistDAL`): `add_to_waitlist`,
  `remove_from_waitlist`.
* `src/controllers/booking_routes.py` (`create_booking` route): interval
  validation and the admission-status policy.

Modelling conventions:
* SQL timestamps are integers (`Int`); statuses are the literal strings the
  code stores.
* The bookings table is a `List Booking`; a SQLAlchemy `select ... where P`
  is `List.filter`.
* SQLAlchemy's `Result.scalar_one_or_none` returns the single row, `None`
  when there is no row, and raises `MultipleResultsFound` when there are two
  or more rows; it is modelled as `Except Unit (Option α)` with `.error ()`
  for the raised exception.  Functions whose Python bodies can propagate that
  exception return `Except`.
* `db_session.commit()` is modelled as always succeeding: the
  `except SQLAlchemyError: rollback` branches of the source handle storage
  backend failure, which is outside the store-level semantics embedded here.
* The autoincrement primary key `booking_id` is modelled as one more than the
  largest id in the store.
-/

namespace CampusHub

/-- A row of the `bookings` table (`src/models.py` `Booking`), restricted to
the columns read or written by the conflict/admission engine. -/
structure Booking where
  booking_id : Nat
  resource_id : Nat
  requester_id : Nat
  start_datetime : Int
  end_datetime : Int
  status : String
  deriving DecidableEq

/-- A row of the `resources` table, restricted to the columns the booking
route reads for the admission decision (`resource_dict` in
`booking_routes.py`; `booking_type` defaults to `"open"` via `getattr`). -/
structure Resource where
  resource_id : Nat
  owner_id : Nat
  status : String
  booking_type : String
  deriving DecidableEq

/-- A row of the `waitlist` table (`waitlist_dal.py`). -/
structure WaitlistEntry where
  resource_id : Nat
  user_id : Nat
  preferred_start : Option Int
  preferred_end : Option Int
  created_at : Int
  deriving DecidableEq

/-- The status filter `Booking.status.in_(['pending', 'approved'])` — the
statuses that take part in conflict detection. -/
def activeStatus (s : String) : Bool :=
  s == "pending" || s == "approved"

/-- The three-clause `or_` in `check_for_conflict`'s `where`:
`(s <= start AND e > start) OR (s < end AND e >= end) OR (s >= start AND e <= end)`. -/
def overlapClause (b : Booking) (start_time end_time : Int) : Bool :=
  (b.start_datetime ≤ start_time && b.end_datetime > start_time) ||
  (b.start_datetime < end_time && b.end_datetime ≥ end_time) ||
  (b.start_datetime ≥ start_time && b.end_datetime ≤ end_time)

/-- The full `select Booking where ...` of `check_for_conflict`, as the list
of rows the database would return. -/
def conflictQuery (store : List Booking) (resource_id : Nat)
    (start_time end_time : Int) : List Booking :=
  store.filter fun b =>
    b.resource_id == resource_id && activeStatus b.status &&
      overlapClause b start_time end_time

/-- SQLAlchemy `Result.scalar_one_or_none`: the row when there is exactly one,
`none` when there is none, and the `MultipleResultsFound` exception
(`.error ()`) when there are two or more. -/
def scalar_one_or_none (l : List α) : Except Unit (Option α) :=
  match l with
  | [] => .ok none
  | [a] => .ok (some a)
  | _ => .error ()

/-- Embeds `BookingDAL.check_for_conflict`: runs the conflict query and returns
`scalar_one_or_none(...) is not None`.  The `MultipleResultsFound` exception
propagates to the caller. -/
def check_for_conflict (store : List Booking) (resource_id : Nat)
    (start_time end_time : Int) : Except Unit Bool :=
  match scalar_one_or_none (conflictQuery store resource_id start_time end_time) with
  | .ok o => .ok o.isSome
  | .error e => .error e

/-- Fresh autoincrement primary key for a new row. -/
def nextBookingId (store : List Booking) : Nat :=
  (store.map Booking.booking_id).foldr Nat.max 0 + 1

/-- Embeds `BookingDAL.create_booking`: returns `None` (no insertion) on conflict,
otherwise inserts the new row and returns it.  The exception raised by
`check_for_conflict` propagates before anything is inserted. -/
def create_booking (store : List Booking) (resource_id requester_id : Nat)
    (start_time end_time : Int) (initial_status : String) :
    Except Unit (Option Booking × List Booking) :=
  match check_for_conflict store resource_id start_time end_time with
  | .error e => .error e
  | .ok true => .ok (none, store)
  | .ok false =>
      let booking : Booking := {
        booking_id := nextBookingId store
        resource_id := resource_id
        requester_id := requester_id
        start_datetime := start_time
        end_datetime := end_time
        status := initial_status }
      .ok (some booking, store ++ [booking])

/-- Embeds `BookingDAL.update_booking_status`: selects the booking by primary key via
`scalar_one_or_none`, returns `None` when it does not exist, and otherwise
sets `booking.status = new_status` unconditionally and commits. -/
def update_booking_status (store : List Booking) (booking_id : Nat)
    (new_status : String) : Except Unit (Option Booking × List Booking) :=
  match scalar_one_or_none (store.filter fun b => b.booking_id == booking_id) with
  | .error e => .error e
  | .ok none => .ok (none, store)
  | .ok (some b) =>
      .ok (some { b with status := new_status },
        store.map fun x =>
          if x.booking_id == booking_id then { x with status := new_status } else x)

/-- The `SELECT * FROM waitlist WHERE resource_id = ... AND user_id = ...`
existence test in `add_to_waitlist`. -/
def onWaitlist (wl : List WaitlistEntry) (resource_id user_id : Nat) : Bool :=
  wl.any fun w => w.resource_id == resource_id && w.user_id == user_id

/-- Embeds `WaitlistDAL.add_to_waitlist`: returns `False` (unchanged) when the pair
is already present, otherwise inserts one row with `created_at = now` and
returns `True`. -/
def add_to_waitlist (wl : List WaitlistEntry) (resource_id user_id : Nat)
    (preferred_start preferred_end : Option Int) (now : Int) :
    Bool × List WaitlistEntry :=
  if onWaitlist wl resource_id user_id then
    (false, wl)
  else
    (true, wl ++ [{ resource_id := resource_id, user_id := user_id,
                    preferred_start := preferred_start,
                    preferred_end := preferred_end, created_at := now }])

/-- Embeds `WaitlistDAL.remove_from_waitlist`: `DELETE FROM waitlist WHERE ...` then
`return True` — the return value never consults how many rows were deleted. -/
def remove_from_waitlist (wl : List WaitlistEntry) (resource_id user_id : Nat) :
    Bool × List WaitlistEntry :=
  (true, wl.filter fun w => !(w.resource_id == resource_id && w.user_id == user_id))

/-- Outcome of one POST to the `create_booking` route, restricted to the
admission decision (flash messages, templates and admin notification are
display-layer effects). -/
inductive RouteResult where
  | invalidInterval
  | created (b : Booking)
  | conflict
  deriving DecidableEq

/-- The admission-status computation of the route:
`'approved' if booking_type == 'open' and resource.status == 'published' else 'pending'`. -/
def initialStatusFor (r : Resource) : String :=
  if r.booking_type == "open" && r.status == "published" then "approved"
  else "pending"

/-- The booking-admission slice of the `create_booking` route in
`booking_routes.py`: reject `end_time <= start_time` before touching the DAL,
otherwise call `BookingDAL.create_booking` with the computed initial status. -/
def route_create_booking (store : List Booking) (r : Resource)
    (requester_id : Nat) (start_time end_time : Int) :
    Except Unit (RouteResult × List Booking) :=
  if end_time ≤ start_time then
    .ok (.invalidInterval, store)
  else
    match create_booking store r.resource_id requester_id start_time end_time
        (initialStatusFor r) with
    | .error e => .error e
    | .ok (none, s) => .ok (.conflict, s)
    | .ok (some b, s) => .ok (.created b, s)

/-- The spec's overlap rule for half-open intervals (§4.2): `[s1,e1)` and
`[s2,e2)` overlap iff `s1 < e2 AND s2 < e1`.  Stated on a stored booking
against a candidate window. -/
def specOverlap (b : Booking) (newStart newEnd : Int) : Bool :=
  b.start_datetime < newEnd && newStart < b.end_datetime

/-- Some stored booking blocks the candidate window per the spec: active status and
spec-overlapping interval, on the given resource. -/
def specConflict (store : List Booking) (resource_id : Nat)
    (newStart newEnd : Int) : Bool :=
  store.any fun b =>
    b.resource_id == resource_id && activeStatus b.status &&
      specOverlap b newStart newEnd

/-- The booking `b` spec-overlaps no active same-resource booking in `l`. -/
def noOverlapWithAll (b : Booking) (l : List Booking) : Bool :=
  l.all fun a =>
    !(b.resource_id == a.resource_id && activeStatus b.status &&
      activeStatus a.status && specOverlap a b.start_datetime b.end_datetime)

/-- The no-double-booking invariant (spec §3 / P1): no two active bookings on
the same resource overlap under the `s1 < e2 AND s2 < e1` rule. -/
def noDouble : List Booking → Bool
  | [] => true
  | b :: rest => noOverlapWithAll b rest && noDouble rest

/-- One admission request, for iterating `create_booking`. -/
structure Request where
  resource_id : Nat
  requester_id : Nat
  start_time : Int
  end_time : Int
  initial_status : String

/-- Run a sequence of `BookingDAL.create_booking` calls; a raised exception
aborts that single request and leaves the store unchanged. -/
def runRequests (store : List Booking) : List Request → List Booking
  | [] => store
  | r :: rs =>
      match create_booking store r.resource_id r.requester_id r.start_time
          r.end_time r.initial_status with
      | .error _ => runRequests store rs
      | .ok (_, store') => runRequests store' rs

/-! ## Basic lemmas about the conflict query and the check -/

/-- Any spec-overlap satisfies the implementation's three-clause disjunction
(no validity assumptions needed in this direction). -/
theorem specOverlap_imp_clause (b : Booking) (ns ne : Int)
    (h : specOverlap b ns ne = true) : overlapClause b ns ne = true := by
  simp only [specOverlap, Bool.and_eq_true, decide_eq_true_eq] at h
  simp only [overlapClause, Bool.and_eq_true, Bool.or_eq_true, decide_eq_true_eq,
    gt_iff_lt, ge_iff_le]
  omega

/-- For a valid candidate window and a valid stored interval, the three-clause
disjunction coincides with the spec's overlap rule. -/
theorem clause_eq_specOverlap (b : Booking) (ns ne : Int) (hc : ns < ne)
    (hb : b.start_datetime < b.end_datetime) :
    overlapClause b ns ne = specOverlap b ns ne := by
  rw [Bool.eq_iff_iff]
  simp only [overlapClause, specOverlap, Bool.and_eq_true, Bool.or_eq_true,
    decide_eq_true_eq, gt_iff_lt, ge_iff_le]
  omega

/-- Membership in the conflict query. -/
theorem mem_conflictQuery (store : List Booking) (rid : Nat) (ns ne : Int)
    (b : Booking) :
    b ∈ conflictQuery store rid ns ne ↔
      b ∈ store ∧ b.resource_id = rid ∧ activeStatus b.status = true ∧
        overlapClause b ns ne = true := by
  simp [conflictQuery, List.mem_filter, Bool.and_eq_true, and_assoc]

/-- The conflict query is empty iff no stored row passes its filter. -/
theorem conflictQuery_eq_nil_iff (store : List Booking) (rid : Nat)
    (ns ne : Int) :
    conflictQuery store rid ns ne = [] ↔
      ∀ b ∈ store, ¬(b.resource_id = rid ∧ activeStatus b.status = true ∧
        overlapClause b ns ne = true) := by
  rw [List.eq_nil_iff_forall_not_mem]
  constructor
  · intro h b hb hcontra
    exact h b ((mem_conflictQuery store rid ns ne b).mpr ⟨hb, hcontra⟩)
  · intro h b hb
    rcases (mem_conflictQuery store rid ns ne b).mp hb with ⟨hmem, hrest⟩
    exact h b hmem hrest

/-- The check returns `.ok false` exactly when the query is empty. -/
theorem check_ok_false_iff (store : List Booking) (rid : Nat) (ns ne : Int) :
    check_for_conflict store rid ns ne = .ok false ↔
      conflictQuery store rid ns ne = [] := by
  unfold check_for_conflict
  rcases q : conflictQuery store rid ns ne with _ | ⟨a, _ | ⟨b, t⟩⟩ <;>
    simp [scalar_one_or_none]

/-- A nonempty query makes the check raise or report a conflict. -/
theorem check_of_query_ne_nil (store : List Booking) (rid : Nat) (ns ne : Int)
    (h : conflictQuery store rid ns ne ≠ []) :
    check_for_conflict store rid ns ne = .error () ∨
      check_for_conflict store rid ns ne = .ok true := by
  unfold check_for_conflict
  rcases q : conflictQuery store rid ns ne with _ | ⟨a, _ | ⟨b, t⟩⟩
  · exact absurd q h
  · right; simp [scalar_one_or_none]
  · left; simp [scalar_one_or_none]

/-- Unfolding `create_booking` on a clean check. -/
theorem create_booking_of_check_false (store : List Booking)
    (rid uid : Nat) (s e : Int) (st : String)
    (h : check_for_conflict store rid s e = .ok false) :
    create_booking store rid uid s e st =
      .ok (some ⟨nextBookingId store, rid, uid, s, e, st⟩,
        store ++ [⟨nextBookingId store, rid, uid, s, e, st⟩]) := by
  unfold create_booking
  rw [h]

/-- Unfolding `create_booking` on a conflicting check. -/
theorem create_booking_of_check_true (store : List Booking)
    (rid uid : Nat) (s e : Int) (st : String)
    (h : check_for_conflict store rid s e = .ok true) :
    create_booking store rid uid s e st = .ok (none, store) := by
  unfold create_booking
  rw [h]

/-- Unfolding `create_booking` on a raising check. -/
theorem create_booking_of_check_error (store : List Booking)
    (rid uid : Nat) (s e : Int) (st : String)
    (h : check_for_conflict store rid s e = .error ()) :
    create_booking store rid uid s e st = .error () := by
  unfold create_booking
  rw [h]

/-! ## The no-double-booking invariant -/

/-- Spec-overlap of `a` against the window of `b` is symmetric. -/
theorem specOverlap_symm (a b : Booking) :
    specOverlap a b.start_datetime b.end_datetime =
      specOverlap b a.start_datetime a.end_datetime := by
  unfold specOverlap
  exact Bool.and_comm _ _

/-- Appending a booking that spec-overlaps no active stored booking on its
resource preserves the invariant. -/
theorem noDouble_append_one (store : List Booking) (b : Booking)
    (hs : noDouble store = true)
    (hb : ∀ a ∈ store, a.resource_id = b.resource_id →
      activeStatus a.status = true → activeStatus b.status = true →
      specOverlap a b.start_datetime b.end_datetime = false) :
    noDouble (store ++ [b]) = true := by
  induction store with
  | nil =>
    simp [noDouble, noOverlapWithAll]
  | cons a rest ih =>
    rw [List.cons_append]
    have hs1 : noOverlapWithAll a rest = true ∧ noDouble rest = true := by
      simpa [noDouble, Bool.and_eq_true] using hs
    have htail : noDouble (rest ++ [b]) = true :=
      ih hs1.2 fun x hx => hb x (List.mem_cons_of_mem a hx)
    have hhead : noOverlapWithAll a (rest ++ [b]) = true := by
      simp only [noOverlapWithAll, List.all_append, List.all_cons, List.all_nil,
        Bool.and_eq_true, Bool.and_true]
      refine ⟨by simpa [noOverlapWithAll] using hs1.1, ?_⟩
      have ha := hb a (List.mem_cons_self a rest)
      rw [Bool.not_eq_true']
      rcases h1 : (a.resource_id == b.resource_id) with _ | _
      · simp [h1]
      · rcases h2 : activeStatus a.status with _ | _
        · simp [h1, h2]
        · rcases h3 : activeStatus b.status with _ | _
          · simp [h1, h2, h3]
          · have h4 := ha (by simpa using h1) h2 h3
            rw [specOverlap_symm] at h4
            simp [h1, h2, h3, h4]
    simp [noDouble, hhead, htail]

/-- One `BookingDAL.create_booking` call that does not raise preserves the
invariant, whatever status it is asked to insert with. -/
theorem create_preserves_noDouble (store : List Booking) (rid uid : Nat)
    (s e : Int) (st : String) (o : Option Booking) (store2 : List Booking)
    (hs : noDouble store = true)
    (h : create_booking store rid uid s e st = .ok (o, store2)) :
    noDouble store2 = true := by
  rcases hc : check_for_conflict store rid s e with u | f
  · cases u
    rw [create_booking_of_check_error store rid uid s e st hc] at h
    exact Except.noConfusion h
  · rcases f with _ | _
    · rw [create_booking_of_check_false store rid uid s e st hc] at h
      simp only [Except.ok.injEq, Prod.mk.injEq] at h
      rw [← h.2]
      have hall := (conflictQuery_eq_nil_iff store rid s e).mp
        ((check_ok_false_iff store rid s e).mp hc)
      apply noDouble_append_one store _ hs
      intro a ha h1 h2 _h3
      by_contra hov
      rw [Bool.not_eq_false] at hov
      exact hall a ha ⟨h1, h2, specOverlap_imp_clause a s e hov⟩
    · rw [create_booking_of_check_true store rid uid s e st hc] at h
      simp only [Except.ok.injEq, Prod.mk.injEq] at h
      rw [← h.2]
      exact hs

/-- Running any sequence of `create_booking` calls preserves the invariant. -/
theorem runRequests_preserves_noDouble (reqs : List Request) :
    ∀ store, noDouble store = true →
      noDouble (runRequests store reqs) = true := by
  induction reqs with
  | nil =>
    intro store h
    simpa [runRequests] using h
  | cons r rs ih =>
    intro store h
    unfold runRequests
    rcases hc : create_booking store r.resource_id r.requester_id r.start_time
        r.end_time r.initial_status with u | p
    · exact ih store h
    · rcases p with ⟨o, store2⟩
      exact ih store2
        (create_preserves_noDouble store r.resource_id r.requester_id
          r.start_time r.end_time r.initial_status o store2 h hc)

/-- A spec-level conflict makes the implementation's query nonempty. -/
theorem specConflict_imp_query_ne_nil (store : List Booking) (rid : Nat)
    (ns ne : Int) (h : specConflict store rid ns ne = true) :
    conflictQuery store rid ns ne ≠ [] := by
  simp only [specConflict, List.any_eq_true, Bool.and_eq_true, beq_iff_eq] at h
  obtain ⟨b, hb, hprops⟩ := h
  intro hnil
  exact (conflictQuery_eq_nil_iff store rid ns ne).mp hnil b hb
    ⟨hprops.1.1, hprops.1.2, specOverlap_imp_clause b ns ne hprops.2⟩

/-! ## Claim C1 — no-double-booking invariant -/

/-- C1 (counterexample to the claim as stated): from an invariant-satisfying
store with two adjacent active reservations on resource 1, a candidate window
conflicting with both makes `create_booking` raise `MultipleResultsFound`
(`.error ()`) instead of returning `None`. -/
theorem C1_counterexample :
    noDouble [⟨1, 1, 7, 0, 2, "approved"⟩, ⟨2, 1, 7, 2, 4, "approved"⟩] = true ∧
    specConflict [⟨1, 1, 7, 0, 2, "approved"⟩, ⟨2, 1, 7, 2, 4, "approved"⟩]
      1 1 3 = true ∧
    create_booking [⟨1, 1, 7, 0, 2, "approved"⟩, ⟨2, 1, 7, 2, 4, "approved"⟩]
      1 9 1 3 "approved" = .error () :=
  ⟨by decide, by decide, rfl⟩

/-- C1 (amended): starting from a store satisfying the no-double-booking
invariant, any sequence of `create_booking` calls preserves the invariant;
and whenever the candidate window conflicts with an existing active
reservation, `create_booking` inserts nothing — it returns `None` or, when
two or more stored rows match the conflict query, raises. -/
theorem C1_no_double_booking (store : List Booking)
    (hs : noDouble store = true) :
    (∀ reqs : List Request, noDouble (runRequests store reqs) = true) ∧
    (∀ rid uid : Nat, ∀ s e : Int, ∀ st : String,
      specConflict store rid s e = true →
        create_booking store rid uid s e st = .error () ∨
        create_booking store rid uid s e st = .ok (none, store)) := by
  refine ⟨fun reqs => runRequests_preserves_noDouble reqs store hs, ?_⟩
  intro rid uid s e st hconf
  have hne := specConflict_imp_query_ne_nil store rid s e hconf
  rcases check_of_query_ne_nil store rid s e hne with h | h
  · exact Or.inl (create_booking_of_check_error store rid uid s e st h)
  · exact Or.inr (create_booking_of_check_true store rid uid s e st h)

/-- C1 witness: the amended theorem applied to a concrete one-booking store. -/
theorem C1_no_double_booking_witness :
    noDouble [⟨1, 1, 7, 0, 2, "approved"⟩] = true ∧
    ((∀ reqs : List Request,
        noDouble (runRequests [⟨1, 1, 7, 0, 2, "approved"⟩] reqs) = true) ∧
      (∀ rid uid : Nat, ∀ s e : Int, ∀ st : String,
        specConflict [⟨1, 1, 7, 0, 2, "approved"⟩] rid s e = true →
          create_booking [⟨1, 1, 7, 0, 2, "approved"⟩] rid uid s e st =
            .error () ∨
          create_booking [⟨1, 1, 7, 0, 2, "approved"⟩] rid uid s e st =
            .ok (none, [⟨1, 1, 7, 0, 2, "approved"⟩]))) :=
  ⟨by decide, C1_no_double_booking [⟨1, 1, 7, 0, 2, "approved"⟩] (by decide)⟩

/-! ## Claim C2 — conflict predicate vs the spec overlap formula -/

/-- C2 (counterexample to the claim as stated): with an inverted candidate
window, or with a degenerate stored interval, the three-clause query reports
a conflict although no stored reservation overlaps the window under
`s < newEnd AND newStart < e`. -/
theorem C2_counterexample :
    (check_for_conflict [⟨1, 1, 7, 5, 6, "approved"⟩] 1 5 3 = .ok true ∧
      specConflict [⟨1, 1, 7, 5, 6, "approved"⟩] 1 5 3 = false) ∧
    (check_for_conflict [⟨1, 1, 7, 2, 2, "pending"⟩] 1 0 2 = .ok true ∧
      specConflict [⟨1, 1, 7, 2, 2, "pending"⟩] 1 0 2 = false) :=
  ⟨⟨rfl, by decide⟩, ⟨rfl, by decide⟩⟩

/-- C2 (amended): for a valid candidate window (`newStart < newEnd`) over a
store whose intervals are valid (`s < e`), the implementation's three-clause
disjunction agrees with the spec formula on every stored row, the conflict
query selects exactly the active spec-overlapping reservations, the check
returns `.ok false` exactly when no active reservation spec-overlaps the
window, and a reservation exactly adjacent to the window never matches. -/
theorem C2_clause_matches_spec_overlap (store : List Booking) (rid : Nat)
    (ns ne : Int) (hc : ns < ne)
    (hv : ∀ b ∈ store, b.start_datetime < b.end_datetime) :
    (∀ b ∈ store, overlapClause b ns ne = specOverlap b ns ne) ∧
    conflictQuery store rid ns ne =
      store.filter (fun b => b.resource_id == rid && activeStatus b.status &&
        specOverlap b ns ne) ∧
    (check_for_conflict store rid ns ne = .ok false ↔
      specConflict store rid ns ne = false) ∧
    (∀ b ∈ store, b.end_datetime = ns ∨ b.start_datetime = ne →
      overlapClause b ns ne = false) := by
  have hcl : ∀ b ∈ store, overlapClause b ns ne = specOverlap b ns ne :=
    fun b hb => clause_eq_specOverlap b ns ne hc (hv b hb)
  have hq : conflictQuery store rid ns ne =
      store.filter (fun b => b.resource_id == rid && activeStatus b.status &&
        specOverlap b ns ne) := by
    unfold conflictQuery
    refine List.filter_congr fun b hb => ?_
    rw [hcl b hb]
  refine ⟨hcl, hq, ?_, ?_⟩
  · rw [check_ok_false_iff, hq]
    constructor
    · intro h
      rw [List.eq_nil_iff_forall_not_mem] at h
      rw [Bool.eq_false_iff]
      intro hany
      simp only [specConflict, List.any_eq_true] at hany
      obtain ⟨b, hb, hpred⟩ := hany
      exact h b (List.mem_filter.mpr ⟨hb, hpred⟩)
    · intro h
      rw [List.eq_nil_iff_forall_not_mem]
      intro b hb
      rw [List.mem_filter] at hb
      rw [Bool.eq_false_iff] at h
      exact h (List.any_eq_true.mpr ⟨b, hb.1, hb.2⟩)
  · intro b hb hadj
    rw [hcl b hb]
    have hno : ¬(specOverlap b ns ne = true) := by
      simp only [specOverlap, Bool.and_eq_true, decide_eq_true_eq]
      rcases hadj with h | h <;> omega
    exact Bool.eq_false_iff.mpr hno

/-- C2 witness: the amended theorem applied to a store with one approved
reservation on `[0, 2)` and the exactly-adjacent candidate window `[2, 4)`. -/
theorem C2_clause_matches_spec_overlap_witness :
    ((2 : Int) < 4 ∧ ∀ b ∈ [(⟨1, 1, 7, 0, 2, "approved"⟩ : Booking)],
      b.start_datetime < b.end_datetime) ∧
    ((∀ b ∈ [(⟨1, 1, 7, 0, 2, "approved"⟩ : Booking)],
        overlapClause b 2 4 = specOverlap b 2 4) ∧
      conflictQuery [⟨1, 1, 7, 0, 2, "approved"⟩] 1 2 4 =
        List.filter (fun b => b.resource_id == 1 && activeStatus b.status &&
          specOverlap b 2 4) [⟨1, 1, 7, 0, 2, "approved"⟩] ∧
      (check_for_conflict [⟨1, 1, 7, 0, 2, "approved"⟩] 1 2 4 = .ok false ↔
        specConflict [⟨1, 1, 7, 0, 2, "approved"⟩] 1 2 4 = false) ∧
      (∀ b ∈ [(⟨1, 1, 7, 0, 2, "approved"⟩ : Booking)],
        b.end_datetime = 2 ∨ b.start_datetime = 4 →
          overlapClause b 2 4 = false)) :=
  ⟨⟨by decide, by decide⟩,
    C2_clause_matches_spec_overlap [⟨1, 1, 7, 0, 2, "approved"⟩] 1 2 4
      (by decide) (by decide)⟩

/-! ## Claim C4 — totality of the conflict check -/

/-- C4: `check_for_conflict` is annotated `-> bool` and its callers branch on
a boolean, but `scalar_one_or_none` raises `MultipleResultsFound` as soon as
two stored active reservations both match the candidate window: each of the
two rows alone yields `.ok true`, together they yield the exception. -/
theorem C4_check_raises_on_two_matches :
    check_for_conflict [⟨1, 5, 7, 10, 20, "pending"⟩] 5 15 25 = .ok true ∧
    check_for_conflict [⟨2, 5, 8, 20, 30, "approved"⟩] 5 15 25 = .ok true ∧
    check_for_conflict [⟨1, 5, 7, 10, 20, "pending"⟩,
      ⟨2, 5, 8, 20, 30, "approved"⟩] 5 15 25 = .error () :=
  ⟨rfl, rfl, rfl⟩

/-! ## Claim C3 — only active statuses block -/

/-- The check result as a function of the number of matching rows. -/
def checkResultOfLength : Nat → Except Unit Bool
  | 0 => .ok false
  | 1 => .ok true
  | _ => .error ()

/-- The check depends on the query only through its length. -/
theorem check_eq_checkResultOfLength (store : List Booking) (rid : Nat)
    (ns ne : Int) :
    check_for_conflict store rid ns ne =
      checkResultOfLength (conflictQuery store rid ns ne).length := by
  unfold check_for_conflict
  rcases conflictQuery store rid ns ne with _ | ⟨a, _ | ⟨b, t⟩⟩ <;> rfl

/-- Replacing the head of the store by a booking with the same filter value
leaves the query length unchanged. -/
theorem conflictQuery_cons_length_congr (x y : Booking) (store : List Booking)
    (rid : Nat) (ns ne : Int)
    (hxy : (x.resource_id == rid && activeStatus x.status &&
        overlapClause x ns ne) =
      (y.resource_id == rid && activeStatus y.status &&
        overlapClause y ns ne)) :
    (conflictQuery (x :: store) rid ns ne).length =
      (conflictQuery (y :: store) rid ns ne).length := by
  simp only [conflictQuery, List.filter_cons]
  rw [hxy]
  rcases hp : (y.resource_id == rid && activeStatus y.status &&
      overlapClause y ns ne) with _ | _ <;> simp [hp]

/-- C3: a reservation whose status is `cancelled`, `rejected` or `completed`
never changes the outcome of `check_for_conflict`, and a reservation with
status `pending` yields exactly the outcome the same reservation with status
`approved` would. -/
theorem C3_only_active_statuses_block (store : List Booking) (b : Booking)
    (rid : Nat) (ns ne : Int)
    (h : b.status = "cancelled" ∨ b.status = "rejected" ∨
      b.status = "completed") :
    check_for_conflict (b :: store) rid ns ne =
      check_for_conflict store rid ns ne ∧
    ∀ c : Booking,
      check_for_conflict ({ c with status := "pending" } :: store) rid ns ne =
        check_for_conflict ({ c with status := "approved" } :: store)
          rid ns ne := by
  constructor
  · have hact : activeStatus b.status = false := by
      rcases h with h | h | h <;> rw [h] <;> rfl
    have hq : conflictQuery (b :: store) rid ns ne =
        conflictQuery store rid ns ne := by
      simp [conflictQuery, List.filter_cons, hact]
    unfold check_for_conflict
    rw [hq]
  · intro c
    rw [check_eq_checkResultOfLength, check_eq_checkResultOfLength,
      conflictQuery_cons_length_congr { c with status := "pending" }
        { c with status := "approved" } store rid ns ne rfl]

/-- C3 witness: a cancelled reservation on the very window it would otherwise
block, over the empty store. -/
theorem C3_only_active_statuses_block_witness :
    ((⟨3, 1, 7, 0, 2, "cancelled"⟩ : Booking).status = "cancelled" ∨
      (⟨3, 1, 7, 0, 2, "cancelled"⟩ : Booking).status = "rejected" ∨
      (⟨3, 1, 7, 0, 2, "cancelled"⟩ : Booking).status = "completed") ∧
    (check_for_conflict [⟨3, 1, 7, 0, 2, "cancelled"⟩] 1 0 2 =
        check_for_conflict [] 1 0 2 ∧
      ∀ c : Booking,
        check_for_conflict ({ c with status := "pending" } :: []) 1 0 2 =
          check_for_conflict ({ c with status := "approved" } :: []) 1 0 2) :=
  ⟨Or.inl rfl,
    C3_only_active_statuses_block [] ⟨3, 1, 7, 0, 2, "cancelled"⟩ 1 0 2
      (Or.inl rfl)⟩

/-! ## Claim C5 — admission status policy -/

/-- A successful route admission returns exactly the booking the DAL
constructs, with the status computed by the route's policy. -/
theorem route_created_eq (store : List Booking) (r : Resource) (uid : Nat)
    (s e : Int) (b : Booking) (store2 : List Booking)
    (h : route_create_booking store r uid s e = .ok (.created b, store2)) :
    b = ⟨nextBookingId store, r.resource_id, uid, s, e,
      initialStatusFor r⟩ := by
  unfold route_create_booking at h
  by_cases hle : e ≤ s
  · rw [if_pos hle] at h
    simp at h
  · rw [if_neg hle] at h
    rcases hc : check_for_conflict store r.resource_id s e with u | f
    · cases u
      rw [create_booking_of_check_error store r.resource_id uid s e
        (initialStatusFor r) hc] at h
      simp at h
    · rcases f with _ | _
      · rw [create_booking_of_check_false store r.resource_id uid s e
          (initialStatusFor r) hc] at h
        simp only [Except.ok.injEq, Prod.mk.injEq,
          RouteResult.created.injEq] at h
        exact h.1.symm
      · rw [create_booking_of_check_true store r.resource_id uid s e
          (initialStatusFor r) hc] at h
        simp at h

/-- C5: whenever the route admits a booking, its initial status is
`approved` iff the resource has `booking_type = open` and
`status = published`, and `pending` in every other case. -/
theorem C5_admission_status_policy (store : List Booking) (r : Resource)
    (uid : Nat) (s e : Int) (b : Booking) (store2 : List Booking)
    (h : route_create_booking store r uid s e = .ok (.created b, store2)) :
    (b.status = "approved" ↔
      r.booking_type = "open" ∧ r.status = "published") ∧
    (b.status = "pending" ↔
      ¬(r.booking_type = "open" ∧ r.status = "published")) := by
  have hb := route_created_eq store r uid s e b store2 h
  have hst : b.status = initialStatusFor r := by rw [hb]
  rw [hst]
  unfold initialStatusFor
  by_cases hcond : (r.booking_type == "open" && r.status == "published") = true
  · rw [if_pos hcond]
    simp only [Bool.and_eq_true, beq_iff_eq] at hcond
    refine ⟨⟨fun _ => hcond, fun _ => rfl⟩, ?_, ?_⟩
    · intro hp
      exact absurd hp (by decide)
    · intro hn
      exact absurd hcond hn
  · rw [if_neg hcond]
    have hcond2 : ¬(r.booking_type = "open" ∧ r.status = "published") := by
      intro hx
      exact hcond (by simp [hx.1, hx.2])
    refine ⟨⟨?_, fun hx => absurd hx hcond2⟩, fun _ => hcond2, fun _ => rfl⟩
    intro hp
    exact absurd hp (by decide)

/-- C5 witness: an open published resource over the empty store admits a
booking as `approved`. -/
theorem C5_admission_status_policy_witness :
    route_create_booking [] ⟨1, 2, "published", "open"⟩ 7 0 1 =
      .ok (.created ⟨1, 1, 7, 0, 1, "approved"⟩,
        [⟨1, 1, 7, 0, 1, "approved"⟩]) ∧
    (((⟨1, 1, 7, 0, 1, "approved"⟩ : Booking).status = "approved" ↔
      (⟨1, 2, "published", "open"⟩ : Resource).booking_type = "open" ∧
        (⟨1, 2, "published", "open"⟩ : Resource).status = "published") ∧
    ((⟨1, 1, 7, 0, 1, "approved"⟩ : Booking).status = "pending" ↔
      ¬((⟨1, 2, "published", "open"⟩ : Resource).booking_type = "open" ∧
        (⟨1, 2, "published", "open"⟩ : Resource).status = "published"))) :=
  ⟨rfl, C5_admission_status_policy [] ⟨1, 2, "published", "open"⟩ 7 0 1
    ⟨1, 1, 7, 0, 1, "approved"⟩ [⟨1, 1, 7, 0, 1, "approved"⟩] rfl⟩

/-! ## Claim C6 — invalid interval rejection -/

/-- C6: for every store — even one on which the conflict check would raise —
a request with `end_time <= start_time` is answered with the invalid-interval
error and the store is unchanged; the DAL is never consulted. -/
theorem C6_invalid_interval_rejected (store : List Booking) (r : Resource)
    (uid : Nat) (s e : Int) (h : e ≤ s) :
    route_create_booking store r uid s e = .ok (.invalidInterval, store) := by
  unfold route_create_booking
  rw [if_pos h]

/-- C6 witness: an inverted window over a store on which the conflict check
would raise `MultipleResultsFound` is still rejected as invalid, with the
store unchanged. -/
theorem C6_invalid_interval_rejected_witness :
    (3 : Int) ≤ 5 ∧
    route_create_booking
      [⟨1, 5, 7, 0, 9, "pending"⟩, ⟨2, 5, 8, 0, 9, "approved"⟩]
      ⟨5, 2, "published", "open"⟩ 9 5 3 =
      .ok (.invalidInterval,
        [⟨1, 5, 7, 0, 9, "pending"⟩, ⟨2, 5, 8, 0, 9, "approved"⟩]) :=
  ⟨by decide,
    C6_invalid_interval_rejected
      [⟨1, 5, 7, 0, 9, "pending"⟩, ⟨2, 5, 8, 0, 9, "approved"⟩]
      ⟨5, 2, "published", "open"⟩ 9 5 3 (by decide)⟩

/-! ## Claim C7 — status transition validation -/

/-- C7 (counterexample to the claim as stated): `completed` is terminal in
the spec's state machine, yet `update_booking_status` happily moves a
completed booking back to `pending`. -/
theorem C7_counterexample :
    update_booking_status [⟨1, 1, 7, 0, 2, "completed"⟩] 1 "pending" =
      .ok (some ⟨1, 1, 7, 0, 2, "pending"⟩, [⟨1, 1, 7, 0, 2, "pending"⟩]) :=
  rfl

/-- C7 (amended): `update_booking_status` validates nothing about the
transition — it sets whatever status it is given on the unique booking with
the given id — and returns `None` with the store unchanged when no booking
has that id. -/
theorem C7_update_status_unconditional (store : List Booking) (bid : Nat)
    (st : String) :
    (store.filter (fun b => b.booking_id == bid) = [] →
      update_booking_status store bid st = .ok (none, store)) ∧
    (∀ b : Booking, store.filter (fun b => b.booking_id == bid) = [b] →
      update_booking_status store bid st =
        .ok (some { b with status := st },
          store.map fun x =>
            if x.booking_id == bid then { x with status := st } else x)) := by
  constructor
  · intro h
    unfold update_booking_status
    rw [h]
    rfl
  · intro b h
    unfold update_booking_status
    rw [h]
    rfl

/-- C7 witness: the amended theorem evaluated on a one-booking store (the
transition `pending → approved`, which is also legal) and on a missing id. -/
theorem C7_update_status_unconditional_witness :
    update_booking_status [⟨1, 1, 7, 0, 2, "pending"⟩] 1 "approved" =
      .ok (some ⟨1, 1, 7, 0, 2, "approved"⟩, [⟨1, 1, 7, 0, 2, "approved"⟩]) ∧
    update_booking_status [⟨1, 1, 7, 0, 2, "pending"⟩] 8 "approved" =
      .ok (none, [⟨1, 1, 7, 0, 2, "pending"⟩]) := by
  constructor
  · exact (C7_update_status_unconditional [⟨1, 1, 7, 0, 2, "pending"⟩] 1
      "approved").2 ⟨1, 1, 7, 0, 2, "pending"⟩ rfl
  · exact (C7_update_status_unconditional [⟨1, 1, 7, 0, 2, "pending"⟩] 8
      "approved").1 rfl

/-! ## Claim C8 — waitlist enrollment idempotence -/

/-- C8: enrolling an already-present `(resource, user)` pair fails and leaves
the waitlist untouched; enrolling a fresh pair appends one entry and
succeeds; enrolling twice succeeds once, then fails, with the final waitlist
exactly the one after the first call. -/
theorem C8_waitlist_enroll_idempotent (wl : List WaitlistEntry)
    (rid uid : Nat) (ps pe : Option Int) (now now2 : Int) :
    (onWaitlist wl rid uid = true →
      add_to_waitlist wl rid uid ps pe now = (false, wl)) ∧
    (onWaitlist wl rid uid = false →
      add_to_waitlist wl rid uid ps pe now =
        (true, wl ++ [⟨rid, uid, ps, pe, now⟩]) ∧
      (add_to_waitlist wl rid uid ps pe now).2.length = wl.length + 1 ∧
      add_to_waitlist (add_to_waitlist wl rid uid ps pe now).2 rid uid ps pe
          now2 =
        (false, (add_to_waitlist wl rid uid ps pe now).2)) := by
  constructor
  · intro h
    unfold add_to_waitlist
    rw [if_pos h]
  · intro h
    have h1 : add_to_waitlist wl rid uid ps pe now =
        (true, wl ++ [⟨rid, uid, ps, pe, now⟩]) := by
      unfold add_to_waitlist
      rw [if_neg (by simp [h])]
    have h2 : onWaitlist (wl ++ [⟨rid, uid, ps, pe, now⟩]) rid uid = true := by
      simp [onWaitlist]
    refine ⟨h1, by simp [h1], ?_⟩
    rw [h1]
    unfold add_to_waitlist
    rw [if_pos h2]

/-- C8 witness: double-enrolling user 2 on resource 1 starting from the empty
waitlist. -/
theorem C8_waitlist_enroll_idempotent_witness :
    onWaitlist [] 1 2 = false ∧
    (add_to_waitlist [] 1 2 none none 10 =
      (true, [] ++ [⟨1, 2, none, none, 10⟩]) ∧
    (add_to_waitlist [] 1 2 none none 10).2.length =
      List.length ([] : List WaitlistEntry) + 1 ∧
    add_to_waitlist (add_to_waitlist [] 1 2 none none 10).2 1 2 none none 11 =
      (false, (add_to_waitlist [] 1 2 none none 10).2)) :=
  ⟨rfl, (C8_waitlist_enroll_idempotent [] 1 2 none none 10 11).2 rfl⟩

/-! ## Claim C9 — waitlist removal return value -/

/-- C9 (counterexample to the claim as stated): removing from an empty
waitlist removes nothing, yet the call reports `True`. -/
theorem C9_counterexample :
    onWaitlist [] 1 2 = false ∧ remove_from_waitlist [] 1 2 = (true, []) :=
  ⟨rfl, rfl⟩

/-- C9 (amended): `remove_from_waitlist` always reports `True` (its `DELETE`
never inspects the number of affected rows); it removes every entry of the
pair, and leaves the waitlist unchanged exactly when the pair was absent. -/
theorem C9_remove_always_reports_true (wl : List WaitlistEntry)
    (rid uid : Nat) :
    (remove_from_waitlist wl rid uid).1 = true ∧
    (remove_from_waitlist wl rid uid).2 =
      wl.filter (fun w => !(w.resource_id == rid && w.user_id == uid)) ∧
    (onWaitlist wl rid uid = false → (remove_from_waitlist wl rid uid).2 = wl) := by
  refine ⟨rfl, rfl, ?_⟩
  intro h
  simp only [remove_from_waitlist]
  rw [List.filter_eq_self]
  intro w hw
  rcases hp : (w.resource_id == rid && w.user_id == uid) with _ | _
  · rfl
  · exfalso
    have htrue : onWaitlist wl rid uid = true := by
      unfold onWaitlist
      exact List.any_eq_true.mpr ⟨w, hw, hp⟩
    rw [h] at htrue
    exact Bool.false_ne_true htrue

/-- C9 witness: the amended theorem on a waitlist holding only the pair
`(3, 4)`, removing the absent pair `(1, 2)`. -/
theorem C9_remove_always_reports_true_witness :
    (remove_from_waitlist [⟨3, 4, none, none, 0⟩] 1 2).1 = true ∧
    (remove_from_waitlist [⟨3, 4, none, none, 0⟩] 1 2).2 =
      List.filter (fun w => !(w.resource_id == 1 && w.user_id == 2))
        [⟨3, 4, none, none, 0⟩] ∧
    (onWaitlist [⟨3, 4, none, none, 0⟩] 1 2 = false →
      (remove_from_waitlist [⟨3, 4, none, none, 0⟩] 1 2).2 =
        [⟨3, 4, none, none, 0⟩]) :=
  C9_remove_always_reports_true [⟨3, 4, none, none, 0⟩] 1 2

/-! ## Claim C10 — the DAL validates no interval -/

/-- C10: `BookingDAL.create_booking` never validates `end > start`: on an
inverted window it still runs only the conflict check, and when that check
reports no conflict it persists and returns a booking whose end does not
exceed its start. -/
theorem C10_dal_accepts_inverted_interval (store : List Booking)
    (rid uid : Nat) (s e : Int) (st : String) (hinv : e ≤ s)
    (hok : check_for_conflict store rid s e = .ok false) :
    create_booking store rid uid s e st =
      .ok (some ⟨nextBookingId store, rid, uid, s, e, st⟩,
        store ++ [⟨nextBookingId store, rid, uid, s, e, st⟩]) ∧
    (⟨nextBookingId store, rid, uid, s, e, st⟩ : Booking).end_datetime ≤
      (⟨nextBookingId store, rid, uid, s, e, st⟩ : Booking).start_datetime :=
  ⟨create_booking_of_check_false store rid uid s e st hok, hinv⟩

/-- C10 witness: the empty store accepts the inverted window `[5, 3)`. -/
theorem C10_dal_accepts_inverted_interval_witness :
    ((3 : Int) ≤ 5 ∧ check_for_conflict [] 1 5 3 = .ok false) ∧
    (create_booking [] 1 7 5 3 "pending" =
      .ok (some ⟨nextBookingId [], 1, 7, 5, 3, "pending"⟩,
        [] ++ [⟨nextBookingId [], 1, 7, 5, 3, "pending"⟩]) ∧
    (⟨nextBookingId [], 1, 7, 5, 3, "pending"⟩ : Booking).end_datetime ≤
      (⟨nextBookingId [], 1, 7, 5, 3, "pending"⟩ : Booking).start_datetime) :=
  ⟨⟨by decide, rfl⟩,
    C10_dal_accepts_inverted_interval [] 1 7 5 3 "pending" (by decide) rfl⟩

end CampusHub
